import Mathlib

/-!
Verification development for the OpenMMDL simulation CLI front-ends
(openmmdl_simulation.py and openmmdl_restart.py).

The two Python modules are shallowly embedded below.  Pure string logic
(extension validation, basename, path joining, script templating) is
translated directly; the operating system is modelled as an oracle record
(existence checks, directory listings, modification times), and each CLI
run function returns a result record tracing its exit code, the diagnostic
lines it prints, the files it writes and whether the external interpreter
process was started.  Informational banner prints are not traced; error
diagnostics and the restart-step warning are.
-/

/-! ## String primitives

Python string operations used by the tools, modelled over character lists.
-/

/-- Bool test: the first list is a prefix of the second (Python startswith). -/
def startsWithL : List Char → List Char → Bool
  | [], _ => true
  | _ :: _, [] => false
  | a :: as, b :: bs => a == b && startsWithL as bs

/-- Bool test: the first list occurs as a contiguous sublist of the second
(the Python expression sub in s). -/
def hasSubL (sub : List Char) : List Char → Bool
  | [] => sub.isEmpty
  | b :: bs => startsWithL sub (b :: bs) || hasSubL sub bs

/-- Python sub in s on strings. -/
def strHas (sub s : String) : Bool := hasSubL sub.data s.data

/-- Python s.startswith(p) on strings. -/
def strSW (p s : String) : Bool := startsWithL p.data s.data

/-- Python s.endswith(suf) on strings. -/
def endsWithS (s suf : String) : Bool := startsWithL suf.data.reverse s.data.reverse

/-- Python ", ".join(l) as used in the validator diagnostic. -/
def joinComma : List String → String
  | [] => ""
  | [x] => x
  | x :: y :: xs => x ++ ", " ++ joinComma (y :: xs)

/-- Python os.path.basename: the part of the path after the last slash. -/
def basename (p : String) : String :=
  String.mk (p.data.foldl (fun acc c => if c == '/' then [] else acc ++ [c]) [])

/-- Python os.path.isabs on POSIX: the path starts with a slash. -/
def isAbs (p : String) : Bool := strSW "/" p

/-- Python os.path.join(d, f) for a relative second component. -/
def pathJoin (d f : String) : String := d ++ "/" ++ f

/-- Python os.path.abspath relative to a current working directory
(normalisation of dot segments is not modelled). -/
def abspath (cwd p : String) : String := if isAbs p then p else pathJoin cwd p

/-- Effect of shutil.copy / file creation on a folder modelled as a list of
entry names: an already-present name is overwritten in place, a new name is
appended. -/
def addName (l : List String) (n : String) : List String :=
  if l.contains n then l else l ++ [n]

/-- Python max(list, key=lambda x: x[1]) over (path, mtime) pairs: none on an
empty list, otherwise the earliest pair whose mtime is maximal. -/
def pymax : List (String × Nat) → Option (String × Nat)
  | [] => none
  | x :: xs => some (xs.foldl (fun acc y => if acc.2 < y.2 then y else acc) x)

/-! ## File validator

validate_file_format is textually identical in openmmdlsimulation.py
(lines 49-66) and openmmdlrestart.py (lines 27-44); it is embedded once.
The returned pair is (result, printed diagnostic if any).
-/

/-- validate_file_format(file_path, valid_extensions, file_description):
none is valid; otherwise valid when some accepted extension occurs inside
the path (Python ext in file_path); on failure the diagnostic line is
produced and false returned. -/
def validate_file_format (file_path : Option String) (valid_extensions : List String)
    (file_description : String) : Bool × Option String :=
  match file_path with
  | none => (true, none)
  | some fp =>
    if valid_extensions.any (fun ext => strHas ext fp) then (true, none)
    else (false, some ("Wrong Format for " ++ file_description ++ ", expected one of: "
      ++ joinComma valid_extensions))

/-! ## Generated restart driver script

The f-string template producing restart_simulation.py is character-identical
in openmmdlsimulation.py (lines 130-191) and openmmdlrestart.py
(lines 229-290); it is embedded once.  The template is split into its
literal segments exactly at the substitution holes of the source f-strings,
so that restart_script_content below is the source template with Lean
string concatenation in place of f-string interpolation.
-/

def rsHeadA : String :=
  "\"\"\"\nOpenMMDL Restart Simulation Script\nGenerated automatically for restarting from checkpoint.\n\"\"\"\n\nimport sys\nimport os\nfrom openmm import Platform, LangevinMiddleIntegrator, MonteCarloBarostat\nfrom openmm.app import (\n    PDBFile, Simulation, DCDReporter, StateDataReporter, CheckpointReporter,\n    PDBReporter, AmberPrmtopFile, AmberInpcrdFile\n)\nfrom openmm import unit\n\nprint(\"=\" * 70)\nprint(\"OpenMMDL Restart Simulation\")\nprint(\"Checkpoint: "

def rsHeadB : String := "\")\nprint(\"Restart Step: "

def rsHeadC : String :=
  "\")\nprint(\"=\" * 70)\n\n# Load the original simulation script to extract parameters\n# Users should ensure the original script is compatible\noriginal_script = \""

def rsHeadD : String := "\"\n\n# Read topology\n"

def rsAmbNl : String := "\n"

def rsAmbPrm : String := "prmtop = AmberPrmtopFile(\""

def rsAmbMidA : String := "\")\n"

def rsAmbInp : String := "inpcrd = AmberInpcrdFile(\""

def rsAmbEnd : String := "\")\ntopology = prmtop.topology\npositions = inpcrd.positions\n"

def rsPdbNl : String := "\n"

def rsPdbFile : String := "pdb = PDBFile(\""

def rsPdbEnd : String := "\")\ntopology = pdb.topology\npositions = pdb.positions\n"

def rsTailA : String :=
  "\n# Execute the original script to get system and simulation parameters\n# This loads all the configurations from the original script\nprint(\"Loading configuration from original script...\")\nexec(open(original_script).read())\n\n# Load checkpoint and continue simulation\nprint(f\"Loading checkpoint: "

def rsTailB : String := "\")\nsimulation.loadCheckpoint(\""

def rsTailC : String := "\")\n\n# Set the current step to the restart step\n"

def rsCurStep : String := "simulation.currentStep = "

def rsTailD : String := "\nprint(f\"Resuming from step: "

def rsTailE : String := "\")\n\n# Continue simulation\nprint(\"Continuing simulation...\")\n"

def rsStepCall : String := "simulation.step(steps - "

def rsTailF : String := ")\n\nprint(\"Restart simulation completed successfully!\")\n"

/-- The Amber topology branch of the template (source: the is_amber case). -/
def rsAmberBranch (topology_filename coord_filename : String) : String :=
  rsAmbNl ++ (rsAmbPrm ++ (topology_filename ++ (rsAmbMidA ++ (rsAmbInp ++ (coord_filename ++ rsAmbEnd)))))

/-- The PDB topology branch of the template (source: the else case). -/
def rsPdbBranch (topology_filename : String) : String :=
  rsPdbNl ++ (rsPdbFile ++ (topology_filename ++ rsPdbEnd))

/-- The tail of the template after the topology branch. -/
def rsTail (checkpoint_filename : String) (restart_step : Int) : String :=
  rsTailA ++ (checkpoint_filename ++ (rsTailB ++ (checkpoint_filename ++ (rsTailC ++
    (rsCurStep ++ (toString restart_step ++ (rsTailD ++ (toString restart_step ++
    (rsTailE ++ (rsStepCall ++ (toString restart_step ++ rsTailF)))))))))))

/-- Full text of the generated restart_simulation.py: header with checkpoint
name, restart step and original script name substituted, then the Amber or
PDB topology branch, then the checkpoint-loading and stepping tail. -/
def restart_script_content (checkpoint_filename topology_filename script_filename
    coord_filename : String) (restart_step : Int) (is_amber : Bool) : String :=
  rsHeadA ++ (checkpoint_filename ++ (rsHeadB ++ (toString restart_step ++ (rsHeadC ++
    (script_filename ++ (rsHeadD ++
    ((if is_amber then rsAmberBranch topology_filename coord_filename
      else rsPdbBranch topology_filename) ++
    rsTail checkpoint_filename restart_step)))))))

/-- The coordinate filename substituted into the Amber branch (line 257 of
openmmdlrestart.py, line 158 of openmmdlsimulation.py): basename of the
coordinate path when one is known, else the placeholder. -/
def coordFilename (coordinate : Option String) : String :=
  match coordinate with
  | some k => basename k
  | none => "coordinates.inpcrd"

/-! ## openmmdl_restart (openmmdlrestart.py) -/

namespace Restart

/-- Oracle view of the operating system as used by openmmdl_restart:
the current working directory, os.path.exists, os.listdir (direct entry
names of a directory) and os.path.getmtime. -/
structure RFS where
  cwd : String
  exists_p : String → Bool
  listdir : String → List String
  mtime : String → Nat

/-- find_checkpoint_in_directory (lines 47-66): collect (path, mtime) for
entries ending in .chk, none when empty, else the most recently modified. -/
def find_checkpoint_in_directory (fs : RFS) (directory : String) : Option String :=
  let chk_files := (fs.listdir directory).filterMap (fun filename =>
    if endsWithS filename ".chk" = true then
      let filepath := pathJoin directory filename
      some (filepath, fs.mtime filepath)
    else none)
  (pymax chk_files).map (fun x => x.1)

/-- find_script_in_directory (lines 69-81): first entry ending in .py other
than restart_simulation.py. -/
def find_script_in_directory (fs : RFS) (directory : String) : Option String :=
  (fs.listdir directory).findSome? (fun filename =>
    if endsWithS filename ".py" = true && filename != "restart_simulation.py" then
      some (pathJoin directory filename)
    else none)

/-- find_topology_in_directory (lines 84-96): first entry ending in .pdb or
.prmtop. -/
def find_topology_in_directory (fs : RFS) (directory : String) : Option String :=
  (fs.listdir directory).findSome? (fun filename =>
    if endsWithS filename ".pdb" = true || endsWithS filename ".prmtop" = true then
      some (pathJoin directory filename)
    else none)

/-- find_coordinate_in_directory (lines 99-111): first entry ending in
.inpcrd. -/
def find_coordinate_in_directory (fs : RFS) (directory : String) : Option String :=
  (fs.listdir directory).findSome? (fun filename =>
    if endsWithS filename ".inpcrd" = true then
      some (pathJoin directory filename)
    else none)

/-- find_trajectory_in_directory (lines 114-133): like the checkpoint
detector with extension .dcd. -/
def find_trajectory_in_directory (fs : RFS) (directory : String) : Option String :=
  let dcd_files := (fs.listdir directory).filterMap (fun filename =>
    if endsWithS filename ".dcd" = true then
      let filepath := pathJoin directory filename
      some (filepath, fs.mtime filepath)
    else none)
  (pymax dcd_files).map (fun x => x.1)

/-- Parsed CLI arguments of openmmdl_restart (argparse defaults: every flag
but -d optional).  The equilibrated and trajectory flags are accepted by the
parser but never read by run_restart_simulation. -/
structure RestartArgs where
  directory : String
  checkpoint : Option String := none
  script : Option String := none
  topology : Option String := none
  coordinate : Option String := none
  restart_step : Option Int := none
  equilibrated : Option String := none
  trajectory : Option String := none

/-- Result trace of run_restart_simulation: exit code, diagnostic lines
printed (banner and informational prints are not traced), the resolved path
of each role once the run succeeds, files written as (path, content), and
the exit status the external interpreter reported if it was started. -/
structure RRes where
  exit : Nat
  out : List String := []
  checkpointPath : Option String := none
  scriptPath : Option String := none
  topologyPath : Option String := none
  coordinatePath : Option String := none
  stepUsed : Option Int := none
  written : List (String × String) := []
  processExit : Option Nat := none

/-- Early-return result carrying a single diagnostic line. -/
def failRes (msg : String) : RRes := { exit := 1, out := [msg] }

/-- An explicitly supplied path (lines 168-169, 178-179, 188-189, 196-197):
kept unchanged when absolute, otherwise joined onto the simulation
directory. -/
def resolve_user_path (sim_directory p : String) : String :=
  if isAbs p = true then p else pathJoin sim_directory p

/-- The two warning lines printed when --restart-step is omitted
(lines 214-216). -/
def warnLines (restart_step : Option Int) : List String :=
  match restart_step with
  | none => ["Warning: --restart-step not specified. Will attempt to infer from checkpoint.",
             "         Specify --restart-step for precise control over the restart point."]
  | some _ => []

/-- run_restart_simulation (lines 136-305).  The externalExit argument is the
exit status of the python3 subprocess started by os.system; the source
discards it and returns 0. -/
def run_restart_simulation (fs : RFS) (args : RestartArgs) (externalExit : Nat) : RRes :=
  let sim_directory := abspath fs.cwd args.directory
  if fs.exists_p sim_directory = false then
    failRes ("Error: Simulation directory not found: " ++ sim_directory)
  else
    let checkpointR : Option String :=
      match args.checkpoint with
      | none => find_checkpoint_in_directory fs sim_directory
      | some c => some (resolve_user_path sim_directory c)
    match checkpointR with
    | none => failRes "Error: No checkpoint file found in directory. Use --checkpoint to specify."
    | some checkpoint =>
      let scriptR : Option String :=
        match args.script with
        | none => find_script_in_directory fs sim_directory
        | some s => some (resolve_user_path sim_directory s)
      match scriptR with
      | none => failRes "Error: No simulation script found in directory. Use --script to specify."
      | some script =>
        let topologyR : Option String :=
          match args.topology with
          | none => find_topology_in_directory fs sim_directory
          | some t => some (resolve_user_path sim_directory t)
        match topologyR with
        | none => failRes "Error: No topology file found in directory. Use --topology to specify."
        | some topology =>
          let coordinate : Option String :=
            match args.coordinate with
            | none => find_coordinate_in_directory fs sim_directory
            | some k => some (resolve_user_path sim_directory k)
          if fs.exists_p checkpoint = false then
            failRes ("Error: Checkpoint file not found: " ++ checkpoint)
          else if fs.exists_p script = false then
            failRes ("Error: Simulation script not found: " ++ script)
          else if fs.exists_p topology = false then
            failRes ("Error: Topology file not found: " ++ topology)
          else
            let restart_step : Int := args.restart_step.getD 0
            let restart_script_path := pathJoin sim_directory "restart_simulation.py"
            let content := restart_script_content (basename checkpoint) (basename topology)
              (basename script) (coordFilename coordinate)
              restart_step (endsWithS topology ".prmtop")
            { exit := 0
              out := warnLines args.restart_step
              checkpointPath := some checkpoint
              scriptPath := some script
              topologyPath := some topology
              coordinatePath := coordinate
              stepUsed := some restart_step
              written := [(restart_script_path, content)]
              processExit := some externalExit }

end Restart

/-! ## openmmdl_simulation (openmmdlsimulation.py) -/

namespace Sim

/-- Oracle view of os.path.exists on source-file paths for the simulation
tool.  The target folder is modelled separately by its contents. -/
structure SimFS where
  exists_src : String → Bool

/-- Result trace of a simulation-tool run: exit code, diagnostic lines,
final contents of the target folder as entry names (none when the folder
was never created), files written via open(..., "w") as (name, content),
and the exit status reported by the external interpreter if started. -/
structure SimRes where
  exit : Nat
  out : List String := []
  folder : Option (List String) := none
  written : List (String × String) := []
  processExit : Option Nat := none

/-- Folder preparation of run_normal_simulation (lines 219-224): a missing
folder is created empty; an existing one is removed recursively with
shutil.rmtree and recreated empty.  The folder is modelled as its list of
(name, content) entries, none meaning the folder does not exist. -/
def prepare_folder_normal (folder : Option (List (String × String))) : List (String × String) :=
  match folder with
  | none => []
  | some _ => []

/-- Folder preparation of run_restart_simulation (lines 98-103): a missing
folder is created empty with os.mkdir; an existing one is used as is. -/
def prepare_folder_restart (folder : Option (List (String × String))) : List (String × String) :=
  match folder with
  | none => []
  | some entries => entries

/-- Optional CLI file arguments of openmmdl_simulation beyond the required
script and topology; main guarantees checkpoint and restart_step are
present before the restart branch runs, so run_restart_simulation below
receives them directly. -/
structure SimArgs where
  script : String
  topology : String
  ligand : Option String := none
  coordinate : Option String := none
  equilibrated : Option String := none
  trajectory : Option String := none

/-- Restart-mode folder step on entry names (lines 98-103): os.mkdir when
the folder is missing, otherwise the existing contents are used as is. -/
def existing_or_new (initialFolder : Option (List String)) : List String :=
  match initialFolder with
  | none => []
  | some names => names

/-- Normal-mode folder step on entry names (lines 219-224): os.mkdir when
missing, otherwise shutil.rmtree followed by os.mkdir; the folder is empty
either way. -/
def prepare_names_normal (initialFolder : Option (List String)) : List String :=
  match initialFolder with
  | none => []
  | some _ => []

/-- One optional copy of the restart branch (lines 110-120): copy the file
into the folder when the argument is provided and the source exists. -/
def copy_optional (fs : SimFS) (o : Option String) (fl : List String) : List String :=
  match o with
  | some p => if fs.exists_src p = true then addName fl (basename p) else fl
  | none => fl

/-- run_restart_simulation of openmmdlsimulation.py (lines 69-206): check
the three required sources exist, create the folder only if missing, copy
the required and present optional sources in, write restart_simulation.py
from the template, chdir and run python3.  externalExit is the status
os.system reports; the source discards it and returns 0. -/
def run_restart_simulation (fs : SimFS) (checkpoint : String) (restart_step : Int)
    (args : SimArgs) (initialFolder : Option (List String)) (externalExit : Nat) : SimRes :=
  if fs.exists_src checkpoint = false then
    { exit := 1, out := ["Error: Checkpoint file not found: " ++ checkpoint],
      folder := initialFolder }
  else if fs.exists_src args.script = false then
    { exit := 1, out := ["Error: Simulation script not found: " ++ args.script],
      folder := initialFolder }
  else if fs.exists_src args.topology = false then
    { exit := 1, out := ["Error: Topology file not found: " ++ args.topology],
      folder := initialFolder }
  else
    let folder0 : List String := existing_or_new initialFolder
    let f1 := addName folder0 (basename args.script)
    let f2 := addName f1 (basename args.topology)
    let f3 := addName f2 (basename checkpoint)
    let f4 := copy_optional fs args.ligand f3
    let f5 := copy_optional fs args.coordinate f4
    let f6 := copy_optional fs args.equilibrated f5
    let f7 := copy_optional fs args.trajectory f6
    let content := restart_script_content (basename checkpoint) (basename args.topology)
      (basename args.script) (coordFilename args.coordinate)
      restart_step (endsWithS args.topology ".prmtop")
    let f8 := addName f7 "restart_simulation.py"
    { exit := 0
      folder := some f8
      written := [("restart_simulation.py", content)]
      processExit := some externalExit }

/-- One validate-and-copy stage of run_normal_simulation (the repeated
pattern of lines 227-251): a missing optional path passes without copying;
otherwise the extension is validated and the source must exist, the copied
basename is added to the folder; none signals the stage returned 1. -/
def validate_and_copy (fs : SimFS) (p : Option String) (exts : List String)
    (d : String) (folder : List String) : Option (List String) :=
  match p with
  | none => some folder
  | some f =>
    if (validate_file_format (some f) exts d).1 = false then none
    else if fs.exists_src f = false then none
    else some (addName folder (basename f))

/-- run_normal_simulation (lines 209-256): wipe or create the folder, then
validate and copy script, topology, optional ligand and coordinate in that
order, aborting with exit 1 as soon as a stage fails, finally chdir and run
python3 on the copied script.  externalExit is the status os.system
reports; the source discards it and returns 0. -/
def run_normal_simulation (fs : SimFS) (script topology : String)
    (ligand coordinate : Option String) (initialFolder : Option (List String))
    (externalExit : Nat) : SimRes :=
  let folder0 : List String := prepare_names_normal initialFolder
  match validate_and_copy fs (some script) [".py"] "script" folder0 with
  | none => { exit := 1, folder := some folder0 }
  | some f1 =>
    match validate_and_copy fs (some topology) [".pdb", ".prmtop"] "topology" f1 with
    | none => { exit := 1, folder := some f1 }
    | some f2 =>
      match validate_and_copy fs ligand [".sdf", ".mol"] "ligand" f2 with
      | none => { exit := 1, folder := some f2 }
      | some f3 =>
        match validate_and_copy fs coordinate [".inpcrd"] "coordinate" f3 with
        | none => { exit := 1, folder := some f3 }
        | some f4 =>
          { exit := 0, folder := some f4, processExit := some externalExit }

end Sim

/-! ## Concrete oracle fixtures used in closed instances -/

/-- The /tmp/run scenario of the spec: directory containing sim.pdb,
run.chk and driver.py, all existing on disk. -/
def scenFS : Restart.RFS :=
  { cwd := "/work"
    exists_p := fun p => p == "/tmp/run" || p == "/tmp/run/run.chk" ||
      p == "/tmp/run/driver.py" || p == "/tmp/run/sim.pdb"
    listdir := fun d => if d == "/tmp/run" then ["sim.pdb", "run.chk", "driver.py"] else []
    mtime := fun _ => 0 }

/-- CLI arguments -d /tmp/run --restart-step 5000. -/
def scenArgs : Restart.RestartArgs := { directory := "/tmp/run", restart_step := some 5000 }

/-- CLI arguments -d /tmp/run with --restart-step omitted. -/
def noStepArgs : Restart.RestartArgs := { directory := "/tmp/run" }

/-- A directory /r with two checkpoints and two trajectories whose
modification order disagrees with lexicographic order. -/
def wfs : Restart.RFS :=
  { cwd := "/work"
    exists_p := fun _ => true
    listdir := fun d => if d == "/r" then ["a.chk", "b.chk", "t1.dcd", "t2.dcd", "x.txt"] else []
    mtime := fun p =>
      if p == "/r/a.chk" then 3 else if p == "/r/b.chk" then 5
      else if p == "/r/t1.dcd" then 9 else if p == "/r/t2.dcd" then 2 else 0 }

/-- A directory holding no checkpoint or trajectory candidates. -/
def wfsEmpty : Restart.RFS :=
  { cwd := "/work", exists_p := fun _ => true,
    listdir := fun _ => ["notes.txt"], mtime := fun _ => 0 }

/-- Source-file oracle on which every path exists. -/
def allFS : Sim.SimFS := { exists_src := fun _ => true }

/-- Simulation-tool arguments of the restart-config scenario. -/
def c1args : Sim.SimArgs :=
  { script := "sim.py", topology := "top.pdb", equilibrated := some "eq.pdb" }

/-- An oracle on which no path exists. -/
def dirlessFS : Restart.RFS :=
  { cwd := "/work", exists_p := fun _ => false, listdir := fun _ => [], mtime := fun _ => 0 }

/-- CLI arguments -d /nonexistent. -/
def args6a : Restart.RestartArgs := { directory := "/nonexistent" }

/-- A directory /d without any checkpoint file. -/
def noChkFS : Restart.RFS :=
  { cwd := "/work", exists_p := fun p => p == "/d",
    listdir := fun d => if d == "/d" then ["top.pdb", "run.py"] else [], mtime := fun _ => 0 }

/-- CLI arguments -d /d. -/
def args6b : Restart.RestartArgs := { directory := "/d" }

/-- A directory /d with a checkpoint but no script. -/
def onlyChkFS : Restart.RFS :=
  { cwd := "/work", exists_p := fun p => p == "/d" || p == "/d/run.chk",
    listdir := fun d => if d == "/d" then ["run.chk"] else [], mtime := fun _ => 0 }

/-- CLI arguments -d /d -c run.chk. -/
def args6c : Restart.RestartArgs := { directory := "/d", checkpoint := some "run.chk" }

/-- A directory /d with a checkpoint and a script but no topology. -/
def noTopFS : Restart.RFS :=
  { cwd := "/work", exists_p := fun p => p == "/d" || p == "/d/run.chk" || p == "/d/sim.py",
    listdir := fun d => if d == "/d" then ["run.chk", "sim.py"] else [], mtime := fun _ => 0 }

/-- CLI arguments -d /d -c run.chk -s sim.py. -/
def args6d : Restart.RestartArgs :=
  { directory := "/d", checkpoint := some "run.chk", script := some "sim.py" }

/-- An oracle on which every path exists and every listing is empty. -/
def allRFS : Restart.RFS :=
  { cwd := "/work", exists_p := fun _ => true, listdir := fun _ => [], mtime := fun _ => 0 }

/-- Explicit paths for every role: a relative checkpoint, an absolute
script, a relative topology and coordinate. -/
def args9 : Restart.RestartArgs :=
  { directory := "/sim", checkpoint := some "c.chk", script := some "/abs/s.py",
    topology := some "t.pdb", coordinate := some "k.inpcrd", restart_step := some 1 }

/-! ## Basic lemmas about the string primitives -/

theorem str_data_append (s t : String) : (s ++ t).data = s.data ++ t.data := by
  cases s; cases t; rfl

theorem swL_self (s t : List Char) : startsWithL s (s ++ t) = true := by
  induction s with
  | nil => rfl
  | cons c cs ih => simp [startsWithL, ih]

theorem swL_cancel (a b c : List Char) :
    startsWithL (a ++ b) (a ++ c) = startsWithL b c := by
  induction a with
  | nil => rfl
  | cons x xs ih => simp [startsWithL, ih]

theorem swL_extend (s t b : List Char) (h : startsWithL s t = true) :
    startsWithL s (t ++ b) = true := by
  induction s generalizing t with
  | nil => rfl
  | cons c cs ih =>
    cases t with
    | nil => simp [startsWithL] at h
    | cons d ds =>
      simp only [startsWithL, Bool.and_eq_true] at h
      simp [startsWithL, h.1, ih ds h.2]

theorem hasSub_of_sw (s t : List Char) (h : startsWithL s t = true) :
    hasSubL s t = true := by
  cases t with
  | nil =>
    cases s with
    | nil => rfl
    | cons a as => simp [startsWithL] at h
  | cons b bs => simp [hasSubL, h]

theorem hasSub_drop (s a t : List Char) (h : hasSubL s t = true) :
    hasSubL s (a ++ t) = true := by
  induction a with
  | nil => simpa using h
  | cons c cs ih => simp [hasSubL, ih]

theorem hasSub_extend (s a b : List Char) (h : hasSubL s a = true) :
    hasSubL s (a ++ b) = true := by
  induction a with
  | nil =>
    simp only [hasSubL, List.isEmpty_iff] at h
    subst h
    cases b with
    | nil => rfl
    | cons c cs => simp [hasSubL, startsWithL]
  | cons c cs ih =>
    simp only [hasSubL, Bool.or_eq_true] at h
    rcases h with h | h
    · have hx := swL_extend s (c :: cs) b h
      simp only [List.cons_append] at hx
      simp [hasSubL, hx]
    · simp [hasSubL, ih h]

theorem strSW_cancel (a b c : String) : strSW (a ++ b) (a ++ c) = strSW b c := by
  unfold strSW
  rw [str_data_append, str_data_append]
  exact swL_cancel _ _ _

theorem strSW_self (s t : String) : strSW s (s ++ t) = true := by
  unfold strSW
  rw [str_data_append]
  exact swL_self _ _

theorem strHas_of_sw (s t : String) (h : strSW s t = true) : strHas s t = true :=
  hasSub_of_sw _ _ h

theorem strHas_drop (s a t : String) (h : strHas s t = true) :
    strHas s (a ++ t) = true := by
  unfold strHas at *
  rw [str_data_append]
  exact hasSub_drop _ _ _ h

theorem strHas_extend (s a b : String) (h : strHas s a = true) :
    strHas s (a ++ b) = true := by
  unfold strHas at *
  rw [str_data_append]
  exact hasSub_extend _ _ _ h

theorem swL_iff (s t : List Char) : startsWithL s t = true ↔ s <+: t := by
  induction s generalizing t with
  | nil => simp [startsWithL]
  | cons c cs ih =>
    cases t with
    | nil => simp [startsWithL]
    | cons b bs => simp [startsWithL, Bool.and_eq_true, beq_iff_eq, ih, List.cons_prefix_cons]

theorem hasSubL_iff (s t : List Char) : hasSubL s t = true ↔ s <:+: t := by
  induction t with
  | nil => simp [hasSubL, List.isEmpty_iff]
  | cons b bs ih => simp [hasSubL, swL_iff, ih, List.infix_cons_iff]

theorem strHas_iff (sub s : String) : strHas sub s = true ↔ sub.data <:+: s.data :=
  hasSubL_iff _ _

/-! ## Helper lemmas about the embedded operations -/

theorem strSW_extend (s a b : String) (h : strSW s a = true) :
    strSW s (a ++ b) = true := by
  unfold strSW at *
  rw [str_data_append]
  exact swL_extend _ _ _ h

theorem pyfold_mem (xs : List (String × Nat)) (x : String × Nat) :
    xs.foldl (fun acc y => if acc.2 < y.2 then y else acc) x ∈ x :: xs := by
  induction xs generalizing x with
  | nil => simp [List.foldl]
  | cons y ys ih =>
    simp only [List.foldl]
    by_cases hc : x.2 < y.2
    · rw [if_pos hc]
      rcases List.mem_cons.mp (ih y) with h | h
      · simp [h]
      · simp [h]
    · rw [if_neg hc]
      rcases List.mem_cons.mp (ih x) with h | h
      · simp [h]
      · simp [h]

theorem pyfold_start (xs : List (String × Nat)) (x : String × Nat) :
    x.2 ≤ (xs.foldl (fun acc y => if acc.2 < y.2 then y else acc) x).2 := by
  induction xs generalizing x with
  | nil => simp [List.foldl]
  | cons y ys ih =>
    simp only [List.foldl]
    by_cases hc : x.2 < y.2
    · rw [if_pos hc]
      exact le_trans (le_of_lt hc) (ih y)
    · rw [if_neg hc]
      exact ih x

theorem pyfold_ge (xs : List (String × Nat)) (x z : String × Nat) (hz : z ∈ x :: xs) :
    z.2 ≤ (xs.foldl (fun acc y => if acc.2 < y.2 then y else acc) x).2 := by
  induction xs generalizing x with
  | nil =>
    simp only [List.mem_singleton] at hz
    subst hz
    simp [List.foldl]
  | cons y ys ih =>
    simp only [List.foldl]
    rcases List.mem_cons.mp hz with hz | hz
    · subst hz
      by_cases hc : z.2 < y.2
      · rw [if_pos hc]
        exact le_trans (le_of_lt hc) (pyfold_start ys y)
      · rw [if_neg hc]
        exact pyfold_start ys z
    · rcases List.mem_cons.mp hz with hz | hz
      · subst hz
        by_cases hc : x.2 < z.2
        · rw [if_pos hc]
          exact pyfold_start ys z
        · rw [if_neg hc]
          exact le_trans (by omega) (pyfold_start ys x)
      · exact ih _ (List.mem_cons_of_mem _ hz)

theorem pymax_none (l : List (String × Nat)) (h : l = []) : pymax l = none := by
  subst h; rfl

theorem pymax_spec (l : List (String × Nat)) (x : String × Nat) (hx : x ∈ l) :
    ∃ m, pymax l = some m ∧ m ∈ l ∧ ∀ z ∈ l, z.2 ≤ m.2 := by
  cases l with
  | nil => simp at hx
  | cons a as =>
    exact ⟨_, rfl, pyfold_mem as a, fun z hz => pyfold_ge as a z hz⟩

/-- The shared listing scan of the two mtime-based detectors: filter by
extension, then take the most recently modified candidate. -/
theorem detect_spec (l : List String) (mt : String → Nat) (d ext : String) :
    ((∀ n ∈ l, endsWithS n ext = false) →
      (pymax (l.filterMap (fun filename =>
        if endsWithS filename ext = true then
          let filepath := pathJoin d filename
          some (filepath, mt filepath)
        else none))).map (fun x => x.1) = none)
    ∧ (∀ n₀ ∈ l, endsWithS n₀ ext = true →
      ∃ f, (pymax (l.filterMap (fun filename =>
          if endsWithS filename ext = true then
            let filepath := pathJoin d filename
            some (filepath, mt filepath)
          else none))).map (fun x => x.1) = some f
        ∧ (∃ n ∈ l, endsWithS n ext = true ∧ f = pathJoin d n)
        ∧ ∀ n ∈ l, endsWithS n ext = true → mt (pathJoin d n) ≤ mt f) := by
  constructor
  · intro h
    have hnil : l.filterMap (fun filename =>
        if endsWithS filename ext = true then
          let filepath := pathJoin d filename
          some (filepath, mt filepath)
        else none) = [] := by
      refine List.filterMap_eq_nil_iff.mpr (fun a ha => ?_)
      simp [h a ha]
    rw [hnil]
    rfl
  · intro n₀ h₀ he
    have hmem : (pathJoin d n₀, mt (pathJoin d n₀)) ∈ l.filterMap (fun filename =>
        if endsWithS filename ext = true then
          let filepath := pathJoin d filename
          some (filepath, mt filepath)
        else none) := by
      refine List.mem_filterMap.mpr ⟨n₀, h₀, ?_⟩
      simp [he]
    obtain ⟨m, hm, hmemm, hbound⟩ := pymax_spec _ _ hmem
    obtain ⟨n, hn, hfn⟩ := List.mem_filterMap.mp hmemm
    have hn2 : endsWithS n ext = true ∧ (pathJoin d n, mt (pathJoin d n)) = m := by
      by_cases hc : endsWithS n ext = true
      · refine ⟨hc, ?_⟩
        simpa [hc] using hfn
      · simp [hc] at hfn
    refine ⟨m.1, by rw [hm]; rfl, ⟨n, hn, hn2.1, by rw [← hn2.2]⟩, ?_⟩
    intro n' hn' he'
    have hmem' : (pathJoin d n', mt (pathJoin d n')) ∈ l.filterMap (fun filename =>
        if endsWithS filename ext = true then
          let filepath := pathJoin d filename
          some (filepath, mt filepath)
        else none) := by
      refine List.mem_filterMap.mpr ⟨n', hn', ?_⟩
      simp [he']
    have := hbound _ hmem'
    have hm2 : mt m.1 = m.2 := by rw [← hn2.2]
    rw [hm2]
    exact this

theorem mem_addName_of_mem (l : List String) (m n : String) (h : n ∈ l) :
    n ∈ addName l m := by
  unfold addName
  split
  · exact h
  · simp [h]

theorem mem_addName (l : List String) (m n : String) (h : n ∈ addName l m) :
    n ∈ l ∨ n = m := by
  unfold addName at h
  split at h
  · exact Or.inl h
  · rcases List.mem_append.mp h with h | h
    · exact Or.inl h
    · simp at h
      exact Or.inr h

theorem vac_sub (fs : Sim.SimFS) (p : Option String) (exts : List String) (d : String)
    (fl fl' : List String) (h : Sim.validate_and_copy fs p exts d fl = some fl') :
    ∀ n ∈ fl', n ∈ fl ∨ ∃ q, p = some q ∧ n = basename q := by
  cases p with
  | none =>
    simp only [Sim.validate_and_copy, Option.some.injEq] at h
    subst h
    exact fun n hn => Or.inl hn
  | some f =>
    simp only [Sim.validate_and_copy] at h
    split at h
    · exact absurd h (by simp)
    · split at h
      · exact absurd h (by simp)
      · simp only [Option.some.injEq] at h
        subst h
        intro n hn
        rcases mem_addName _ _ _ hn with hn | hn
        · exact Or.inl hn
        · exact Or.inr ⟨f, rfl, hn⟩

/-! ## Shape lemmas for the run functions -/

theorem Restart.run_shape (fs : Restart.RFS) (args : Restart.RestartArgs) (ex : Nat) :
    (∃ m, Restart.run_restart_simulation fs args ex = Restart.failRes m)
    ∨ ∃ ck sc tp co,
        Restart.run_restart_simulation fs args ex =
          { exit := 0
            out := warnLines args.restart_step
            checkpointPath := some ck
            scriptPath := some sc
            topologyPath := some tp
            coordinatePath := co
            stepUsed := some (args.restart_step.getD 0)
            written := [(pathJoin (abspath fs.cwd args.directory) "restart_simulation.py",
              restart_script_content (basename ck) (basename tp) (basename sc)
                (coordFilename co) (args.restart_step.getD 0) (endsWithS tp ".prmtop"))]
            processExit := some ex } := by
  simp only [Restart.run_restart_simulation]
  repeat' split
  all_goals first
    | exact Or.inl ⟨_, rfl⟩
    | exact Or.inr ⟨_, _, _, _, rfl⟩

theorem Sim.run_restart_shape (fs : Sim.SimFS) (ck : String) (st : Int)
    (args : Sim.SimArgs) (init : Option (List String)) (ex : Nat) :
    (∃ m, Sim.run_restart_simulation fs ck st args init ex =
        { exit := 1, out := [m], folder := init })
    ∨ Sim.run_restart_simulation fs ck st args init ex =
        { exit := 0
          folder := some (addName (Sim.copy_optional fs args.trajectory
            (Sim.copy_optional fs args.equilibrated (Sim.copy_optional fs args.coordinate
            (Sim.copy_optional fs args.ligand (addName (addName (addName
              (Sim.existing_or_new init) (basename args.script)) (basename args.topology))
              (basename ck)))))) "restart_simulation.py")
          written := [("restart_simulation.py", restart_script_content (basename ck)
            (basename args.topology) (basename args.script) (coordFilename args.coordinate)
            st (endsWithS args.topology ".prmtop"))]
          processExit := some ex } := by
  simp only [Sim.run_restart_simulation]
  repeat' split
  all_goals first
    | exact Or.inl ⟨_, rfl⟩
    | exact Or.inr rfl

theorem Sim.prepare_names_normal_eq (init : Option (List String)) :
    Sim.prepare_names_normal init = [] := by
  cases init <;> rfl

theorem Sim.rn_eq_fail1 (fs : Sim.SimFS) (script topology : String)
    (ligand coordinate : Option String) (init : Option (List String)) (ex : Nat)
    (h : Sim.validate_and_copy fs (some script) [".py"] "script" [] = none) :
    Sim.run_normal_simulation fs script topology ligand coordinate init ex =
      { exit := 1, folder := some [] } := by
  simp [Sim.run_normal_simulation, Sim.prepare_names_normal_eq, h]

theorem Sim.rn_eq_fail2 (fs : Sim.SimFS) (script topology : String)
    (ligand coordinate : Option String) (init : Option (List String)) (ex : Nat)
    (f1 : List String)
    (h1 : Sim.validate_and_copy fs (some script) [".py"] "script" [] = some f1)
    (h2 : Sim.validate_and_copy fs (some topology) [".pdb", ".prmtop"] "topology" f1 = none) :
    Sim.run_normal_simulation fs script topology ligand coordinate init ex =
      { exit := 1, folder := some f1 } := by
  simp [Sim.run_normal_simulation, Sim.prepare_names_normal_eq, h1, h2]

theorem Sim.rn_eq_fail3 (fs : Sim.SimFS) (script topology : String)
    (ligand coordinate : Option String) (init : Option (List String)) (ex : Nat)
    (f1 f2 : List String)
    (h1 : Sim.validate_and_copy fs (some script) [".py"] "script" [] = some f1)
    (h2 : Sim.validate_and_copy fs (some topology) [".pdb", ".prmtop"] "topology" f1 = some f2)
    (h3 : Sim.validate_and_copy fs ligand [".sdf", ".mol"] "ligand" f2 = none) :
    Sim.run_normal_simulation fs script topology ligand coordinate init ex =
      { exit := 1, folder := some f2 } := by
  simp [Sim.run_normal_simulation, Sim.prepare_names_normal_eq, h1, h2, h3]

theorem Sim.rn_eq_fail4 (fs : Sim.SimFS) (script topology : String)
    (ligand coordinate : Option String) (init : Option (List String)) (ex : Nat)
    (f1 f2 f3 : List String)
    (h1 : Sim.validate_and_copy fs (some script) [".py"] "script" [] = some f1)
    (h2 : Sim.validate_and_copy fs (some topology) [".pdb", ".prmtop"] "topology" f1 = some f2)
    (h3 : Sim.validate_and_copy fs ligand [".sdf", ".mol"] "ligand" f2 = some f3)
    (h4 : Sim.validate_and_copy fs coordinate [".inpcrd"] "coordinate" f3 = none) :
    Sim.run_normal_simulation fs script topology ligand coordinate init ex =
      { exit := 1, folder := some f3 } := by
  simp [Sim.run_normal_simulation, Sim.prepare_names_normal_eq, h1, h2, h3, h4]

theorem Sim.rn_eq_done (fs : Sim.SimFS) (script topology : String)
    (ligand coordinate : Option String) (init : Option (List String)) (ex : Nat)
    (f1 f2 f3 f4 : List String)
    (h1 : Sim.validate_and_copy fs (some script) [".py"] "script" [] = some f1)
    (h2 : Sim.validate_and_copy fs (some topology) [".pdb", ".prmtop"] "topology" f1 = some f2)
    (h3 : Sim.validate_and_copy fs ligand [".sdf", ".mol"] "ligand" f2 = some f3)
    (h4 : Sim.validate_and_copy fs coordinate [".inpcrd"] "coordinate" f3 = some f4) :
    Sim.run_normal_simulation fs script topology ligand coordinate init ex =
      { exit := 0, folder := some f4, processExit := some ex } := by
  simp [Sim.run_normal_simulation, Sim.prepare_names_normal_eq, h1, h2, h3, h4]

theorem mem_copy_optional_of_mem (fs : Sim.SimFS) (o : Option String)
    (fl : List String) (n : String) (h : n ∈ fl) : n ∈ Sim.copy_optional fs o fl := by
  cases o with
  | none => exact h
  | some p =>
    simp only [Sim.copy_optional]
    split
    · exact mem_addName_of_mem _ _ _ h
    · exact h

/-! ## Containment lemmas for the generated script text -/

theorem content_has_currentStep (ck tp sc cf : String) (st : Int) (amb : Bool) :
    strHas (rsCurStep ++ toString st) (restart_script_content ck tp sc cf st amb) = true := by
  unfold restart_script_content rsTail
  apply strHas_drop
  apply strHas_drop
  apply strHas_drop
  apply strHas_drop
  apply strHas_drop
  apply strHas_drop
  apply strHas_drop
  apply strHas_drop
  apply strHas_drop
  apply strHas_drop
  apply strHas_drop
  apply strHas_drop
  apply strHas_drop
  apply strHas_of_sw
  rw [strSW_cancel]
  exact strSW_self _ _

theorem content_has_stepCall (ck tp sc cf : String) (st : Int) (amb : Bool) :
    strHas (rsStepCall ++ (toString st ++ ")"))
      (restart_script_content ck tp sc cf st amb) = true := by
  unfold restart_script_content rsTail
  apply strHas_drop
  apply strHas_drop
  apply strHas_drop
  apply strHas_drop
  apply strHas_drop
  apply strHas_drop
  apply strHas_drop
  apply strHas_drop
  apply strHas_drop
  apply strHas_drop
  apply strHas_drop
  apply strHas_drop
  apply strHas_drop
  apply strHas_drop
  apply strHas_drop
  apply strHas_drop
  apply strHas_drop
  apply strHas_drop
  apply strHas_of_sw
  rw [strSW_cancel, strSW_cancel]
  decide

theorem amberBranch_has_prmtop (tp cf : String) :
    strHas (rsAmbPrm ++ (tp ++ "\")")) (rsAmberBranch tp cf) = true := by
  unfold rsAmberBranch
  apply strHas_drop
  apply strHas_of_sw
  rw [strSW_cancel, strSW_cancel]
  apply strSW_extend
  decide

theorem amberBranch_has_inpcrd (tp cf : String) :
    strHas (rsAmbInp ++ (cf ++ "\")")) (rsAmberBranch tp cf) = true := by
  unfold rsAmberBranch
  apply strHas_drop
  apply strHas_drop
  apply strHas_drop
  apply strHas_drop
  apply strHas_of_sw
  rw [strSW_cancel, strSW_cancel]
  decide

theorem pdbBranch_has_pdbfile (tp : String) :
    strHas (rsPdbFile ++ (tp ++ "\")")) (rsPdbBranch tp) = true := by
  unfold rsPdbBranch
  apply strHas_drop
  apply strHas_of_sw
  rw [strSW_cancel, strSW_cancel]
  decide

theorem content_amber_prmtop (ck tp sc cf : String) (st : Int) :
    strHas (rsAmbPrm ++ (tp ++ "\")")) (restart_script_content ck tp sc cf st true) = true := by
  unfold restart_script_content
  apply strHas_drop
  apply strHas_drop
  apply strHas_drop
  apply strHas_drop
  apply strHas_drop
  apply strHas_drop
  apply strHas_drop
  apply strHas_extend
  exact amberBranch_has_prmtop tp cf

theorem content_amber_inpcrd (ck tp sc cf : String) (st : Int) :
    strHas (rsAmbInp ++ (cf ++ "\")")) (restart_script_content ck tp sc cf st true) = true := by
  unfold restart_script_content
  apply strHas_drop
  apply strHas_drop
  apply strHas_drop
  apply strHas_drop
  apply strHas_drop
  apply strHas_drop
  apply strHas_drop
  apply strHas_extend
  exact amberBranch_has_inpcrd tp cf

theorem content_pdb_line (ck tp sc cf : String) (st : Int) :
    strHas (rsPdbFile ++ (tp ++ "\")")) (restart_script_content ck tp sc cf st false) = true := by
  unfold restart_script_content
  apply strHas_drop
  apply strHas_drop
  apply strHas_drop
  apply strHas_drop
  apply strHas_drop
  apply strHas_drop
  apply strHas_drop
  apply strHas_extend
  exact pdbBranch_has_pdbfile tp

/-! ## Claim theorems -/

theorem validate_fst (p : String) (exts : List String) (d : String) :
    (validate_file_format (some p) exts d).1 = exts.any (fun ext => strHas ext p) := by
  simp only [validate_file_format]
  split
  · next h => exact h.symm
  · next h =>
    simp only [Bool.not_eq_true] at h
    exact h.symm

/-- C3: validate_file_format treats an absent path as valid; a present path
validates true exactly when some accepted extension occurs as a substring of
the path (not necessarily as a suffix); on failure the printed diagnostic
names the file role and the accepted extension set and false is returned. -/
theorem C3_validator_contract (valid_extensions : List String) (file_description : String) :
    validate_file_format none valid_extensions file_description = (true, none)
    ∧ (∀ p, (validate_file_format (some p) valid_extensions file_description).1 = true
        ↔ ∃ ext ∈ valid_extensions, ext.data <:+: p.data)
    ∧ (∀ p, (validate_file_format (some p) valid_extensions file_description).1 = false →
        (validate_file_format (some p) valid_extensions file_description).2 =
          some ("Wrong Format for " ++ file_description ++ ", expected one of: "
            ++ joinComma valid_extensions)) := by
  refine ⟨rfl, ?_, ?_⟩
  · intro p
    rw [validate_fst]
    simp [List.any_eq_true, strHas_iff]
  · intro p hf
    rw [validate_fst] at hf
    simp [validate_file_format, hf]

/-- Closed instance of C3: a concrete invalid path yields false with the
diagnostic, a path merely containing .pdb inside validates true, an absent
path validates true. -/
theorem C3_validator_contract_witness :
    (validate_file_format (some "protein.xyz") [".pdb", ".prmtop"] "topology").2 =
      some "Wrong Format for topology, expected one of: .pdb, .prmtop"
    ∧ (validate_file_format (some "my.pdbfoo") [".pdb"] "topology").1 = true
    ∧ validate_file_format none [".chk"] "checkpoint" = (true, none) := by
  refine ⟨(C3_validator_contract [".pdb", ".prmtop"] "topology").2.2 "protein.xyz" (by decide),
    ((C3_validator_contract [".pdb"] "topology").2.1 "my.pdbfoo").mpr
      ⟨".pdb", by simp, (strHas_iff ".pdb" "my.pdbfoo").mp (by decide)⟩,
    (C3_validator_contract [".chk"] "checkpoint").1⟩

/-- C5: the checkpoint and trajectory auto-detectors return a file ending in
.chk (resp. .dcd) whose modification time is maximal among all candidates
when at least one candidate exists, and return none when no entry carries
the extension. -/
theorem C5_detectors (fs : Restart.RFS) (d : String) :
    ((∀ n ∈ fs.listdir d, endsWithS n ".chk" = false) →
        Restart.find_checkpoint_in_directory fs d = none)
    ∧ (∀ n₀ ∈ fs.listdir d, endsWithS n₀ ".chk" = true →
        ∃ f, Restart.find_checkpoint_in_directory fs d = some f
          ∧ (∃ n ∈ fs.listdir d, endsWithS n ".chk" = true ∧ f = pathJoin d n)
          ∧ ∀ n ∈ fs.listdir d, endsWithS n ".chk" = true →
              fs.mtime (pathJoin d n) ≤ fs.mtime f)
    ∧ ((∀ n ∈ fs.listdir d, endsWithS n ".dcd" = false) →
        Restart.find_trajectory_in_directory fs d = none)
    ∧ (∀ n₀ ∈ fs.listdir d, endsWithS n₀ ".dcd" = true →
        ∃ f, Restart.find_trajectory_in_directory fs d = some f
          ∧ (∃ n ∈ fs.listdir d, endsWithS n ".dcd" = true ∧ f = pathJoin d n)
          ∧ ∀ n ∈ fs.listdir d, endsWithS n ".dcd" = true →
              fs.mtime (pathJoin d n) ≤ fs.mtime f) := by
  refine ⟨?_, ?_, ?_, ?_⟩
  · exact (detect_spec (fs.listdir d) fs.mtime d ".chk").1
  · exact (detect_spec (fs.listdir d) fs.mtime d ".chk").2
  · exact (detect_spec (fs.listdir d) fs.mtime d ".dcd").1
  · exact (detect_spec (fs.listdir d) fs.mtime d ".dcd").2

/-- Closed instance of C5: with a.chk older than b.chk the detector returns
b.chk even though a.chk comes first lexicographically and in the listing;
the trajectory detector picks the newest .dcd; a listing without candidates
yields none. -/
theorem C5_detectors_witness :
    Restart.find_checkpoint_in_directory wfs "/r" = some "/r/b.chk"
    ∧ Restart.find_trajectory_in_directory wfs "/r" = some "/r/t1.dcd"
    ∧ (∃ f, Restart.find_checkpoint_in_directory wfs "/r" = some f
        ∧ (∃ n ∈ wfs.listdir "/r", endsWithS n ".chk" = true ∧ f = pathJoin "/r" n)
        ∧ ∀ n ∈ wfs.listdir "/r", endsWithS n ".chk" = true →
            wfs.mtime (pathJoin "/r" n) ≤ wfs.mtime f)
    ∧ Restart.find_checkpoint_in_directory wfsEmpty "/r" = none
    ∧ Restart.find_trajectory_in_directory wfsEmpty "/r" = none := by
  refine ⟨by decide, by decide,
    (C5_detectors wfs "/r").2.1 "a.chk" (by decide) (by decide),
    (C5_detectors wfsEmpty "/r").1 (by decide),
    (C5_detectors wfsEmpty "/r").2.2.1 (by decide)⟩

/-- C1: run_restart_simulation of openmmdl_simulation never writes
restart_config.txt.  In the scenario of the spec (and of the repository
test test_restart_config_file_created) with checkpoint foo.chk, restart
step 10000 and equilibrated eq.pdb, the run succeeds but the only file it
writes is restart_simulation.py, and restart_config.txt never appears in
the folder. -/
theorem C1_restart_config_never_written :
    (∀ (fs : Sim.SimFS) (ck : String) (st : Int) (args : Sim.SimArgs)
        (init : Option (List String)) (ex : Nat),
      "restart_config.txt" ∉
        (Sim.run_restart_simulation fs ck st args init ex).written.map Prod.fst)
    ∧ (Sim.run_restart_simulation allFS "foo.chk" 10000 c1args none 0).exit = 0
    ∧ (Sim.run_restart_simulation allFS "foo.chk" 10000 c1args none 0).written.map Prod.fst
        = ["restart_simulation.py"]
    ∧ (Sim.run_restart_simulation allFS "foo.chk" 10000 c1args none 0).folder
        = some ["sim.py", "top.pdb", "foo.chk", "eq.pdb", "restart_simulation.py"] := by
  refine ⟨?_, by decide, by decide, by decide⟩
  intro fs ck st args init ex
  rcases Sim.run_restart_shape fs ck st args init ex with ⟨m, hm⟩ | hm
  · rw [hm]
    simp
  · rw [hm]
    simp only [List.map_cons, List.map_nil]
    decide

/-- C2 (amended): once a run reaches the final external-process step, the
tool returns 0 regardless of the exit status the external interpreter
reported, for the restart tool and for both branches of the simulation
tool. -/
theorem C2_exit_zero_regardless :
    (∀ (fs : Restart.RFS) (args : Restart.RestartArgs) (ex e : Nat),
       (Restart.run_restart_simulation fs args ex).processExit = some e →
       (Restart.run_restart_simulation fs args ex).exit = 0)
    ∧ (∀ (fs : Sim.SimFS) (ck : String) (st : Int) (args : Sim.SimArgs)
        (init : Option (List String)) (ex e : Nat),
       (Sim.run_restart_simulation fs ck st args init ex).processExit = some e →
       (Sim.run_restart_simulation fs ck st args init ex).exit = 0)
    ∧ (∀ (fs : Sim.SimFS) (script topology : String) (ligand coordinate : Option String)
        (init : Option (List String)) (ex e : Nat),
       (Sim.run_normal_simulation fs script topology ligand coordinate init ex).processExit
          = some e →
       (Sim.run_normal_simulation fs script topology ligand coordinate init ex).exit = 0) := by
  refine ⟨?_, ?_, ?_⟩
  · intro fs args ex e h
    rcases Restart.run_shape fs args ex with ⟨m, hm⟩ | ⟨ck, sc, tp, co, hm⟩
    · rw [hm] at h
      simp [Restart.failRes] at h
    · rw [hm]
  · intro fs ck st args init ex e h
    rcases Sim.run_restart_shape fs ck st args init ex with ⟨m, hm⟩ | hm
    · rw [hm] at h
      simp at h
    · rw [hm]
  · intro fs script topology ligand coordinate init ex e h
    cases hv1 : Sim.validate_and_copy fs (some script) [".py"] "script" [] with
    | none =>
      rw [Sim.rn_eq_fail1 fs script topology ligand coordinate init ex hv1] at h
      simp at h
    | some f1 =>
      cases hv2 : Sim.validate_and_copy fs (some topology) [".pdb", ".prmtop"] "topology" f1 with
      | none =>
        rw [Sim.rn_eq_fail2 fs script topology ligand coordinate init ex f1 hv1 hv2] at h
        simp at h
      | some f2 =>
        cases hv3 : Sim.validate_and_copy fs ligand [".sdf", ".mol"] "ligand" f2 with
        | none =>
          rw [Sim.rn_eq_fail3 fs script topology ligand coordinate init ex f1 f2 hv1 hv2 hv3] at h
          simp at h
        | some f3 =>
          cases hv4 : Sim.validate_and_copy fs coordinate [".inpcrd"] "coordinate" f3 with
          | none =>
            rw [Sim.rn_eq_fail4 fs script topology ligand coordinate init ex
              f1 f2 f3 hv1 hv2 hv3 hv4] at h
            simp at h
          | some f4 =>
            rw [Sim.rn_eq_done fs script topology ligand coordinate init ex
              f1 f2 f3 f4 hv1 hv2 hv3 hv4]

/-- Closed instance of C2 (amended): a run that started the external
process with reported status 3 still returns 0. -/
theorem C2_exit_zero_regardless_witness :
    (Restart.run_restart_simulation scenFS scenArgs 3).processExit = some 3
    ∧ (Restart.run_restart_simulation scenFS scenArgs 3).exit = 0 :=
  ⟨by decide, C2_exit_zero_regardless.1 scenFS scenArgs 3 3 (by decide)⟩

/-- Counterexample to C2 as stated: in the /tmp/run scenario the external
interpreter reports exit status 7, yet the tool's run function returns 0,
not 7. -/
theorem C2_propagation_counterexample :
    (Restart.run_restart_simulation scenFS scenArgs 7).processExit = some 7
    ∧ (Restart.run_restart_simulation scenFS scenArgs 7).exit = 0
    ∧ (Restart.run_restart_simulation scenFS scenArgs 7).exit ≠ 7 := by
  refine ⟨by decide, by decide, by decide⟩

theorem Sim.run_normal_folder_sub (fs : Sim.SimFS) (script topology : String)
    (ligand coordinate : Option String) (init : Option (List String)) (ex : Nat)
    (l : List String)
    (h : (Sim.run_normal_simulation fs script topology ligand coordinate init ex).folder
          = some l) :
    ∀ n ∈ l, n = basename script ∨ n = basename topology
      ∨ (∃ q, ligand = some q ∧ n = basename q)
      ∨ (∃ q, coordinate = some q ∧ n = basename q) := by
  cases hv1 : Sim.validate_and_copy fs (some script) [".py"] "script" [] with
  | none =>
    rw [Sim.rn_eq_fail1 fs script topology ligand coordinate init ex hv1] at h
    simp only [Option.some.injEq] at h
    subst h
    intro n hn
    simp at hn
  | some f1 =>
    have s1 := vac_sub fs (some script) [".py"] "script" [] f1 hv1
    have hf1 : ∀ n ∈ f1, n = basename script := by
      intro n hn
      rcases s1 n hn with hn' | ⟨q, hq, hb⟩
      · simp at hn'
      · simp only [Option.some.injEq] at hq
        rw [hb, hq]
    cases hv2 : Sim.validate_and_copy fs (some topology) [".pdb", ".prmtop"] "topology" f1 with
    | none =>
      rw [Sim.rn_eq_fail2 fs script topology ligand coordinate init ex f1 hv1 hv2] at h
      simp only [Option.some.injEq] at h
      subst h
      intro n hn
      exact Or.inl (hf1 n hn)
    | some f2 =>
      have s2 := vac_sub fs (some topology) [".pdb", ".prmtop"] "topology" f1 f2 hv2
      have hf2 : ∀ n ∈ f2, n = basename script ∨ n = basename topology := by
        intro n hn
        rcases s2 n hn with hn' | ⟨q, hq, hb⟩
        · exact Or.inl (hf1 n hn')
        · simp only [Option.some.injEq] at hq
          exact Or.inr (by rw [hb, hq])
      cases hv3 : Sim.validate_and_copy fs ligand [".sdf", ".mol"] "ligand" f2 with
      | none =>
        rw [Sim.rn_eq_fail3 fs script topology ligand coordinate init ex f1 f2 hv1 hv2 hv3] at h
        simp only [Option.some.injEq] at h
        subst h
        intro n hn
        rcases hf2 n hn with hn' | hn'
        · exact Or.inl hn'
        · exact Or.inr (Or.inl hn')
      | some f3 =>
        have s3 := vac_sub fs ligand [".sdf", ".mol"] "ligand" f2 f3 hv3
        have hf3 : ∀ n ∈ f3, n = basename script ∨ n = basename topology
            ∨ ∃ q, ligand = some q ∧ n = basename q := by
          intro n hn
          rcases s3 n hn with hn' | hq
          · rcases hf2 n hn' with hn'' | hn''
            · exact Or.inl hn''
            · exact Or.inr (Or.inl hn'')
          · exact Or.inr (Or.inr hq)
        cases hv4 : Sim.validate_and_copy fs coordinate [".inpcrd"] "coordinate" f3 with
        | none =>
          rw [Sim.rn_eq_fail4 fs script topology ligand coordinate init ex
            f1 f2 f3 hv1 hv2 hv3 hv4] at h
          simp only [Option.some.injEq] at h
          subst h
          intro n hn
          rcases hf3 n hn with hn' | hn' | hn'
          · exact Or.inl hn'
          · exact Or.inr (Or.inl hn')
          · exact Or.inr (Or.inr (Or.inl hn'))
        | some f4 =>
          rw [Sim.rn_eq_done fs script topology ligand coordinate init ex
            f1 f2 f3 f4 hv1 hv2 hv3 hv4] at h
          simp only [Option.some.injEq] at h
          intro n hn
          rw [← h] at hn
          rcases vac_sub fs coordinate [".inpcrd"] "coordinate" f3 f4 hv4 n hn with hn' | hq
          · rcases hf3 n hn' with hn'' | hn'' | hn''
            · exact Or.inl hn''
            · exact Or.inr (Or.inl hn'')
            · exact Or.inr (Or.inr (Or.inl hn''))
          · exact Or.inr (Or.inr (Or.inr hq))

theorem Sim.run_restart_preserves (fs : Sim.SimFS) (ck : String) (st : Int)
    (args : Sim.SimArgs) (contents : List String) (ex : Nat) (l : List String)
    (h : (Sim.run_restart_simulation fs ck st args (some contents) ex).folder = some l) :
    ∀ n ∈ contents, n ∈ l := by
  rcases Sim.run_restart_shape fs ck st args (some contents) ex with ⟨m, hm⟩ | hm
  · rw [hm] at h
    simp only [Option.some.injEq] at h
    subst h
    exact fun n hn => hn
  · rw [hm] at h
    simp only [Option.some.injEq] at h
    subst h
    intro n hn
    apply mem_addName_of_mem
    apply mem_copy_optional_of_mem
    apply mem_copy_optional_of_mem
    apply mem_copy_optional_of_mem
    apply mem_copy_optional_of_mem
    apply mem_addName_of_mem
    apply mem_addName_of_mem
    apply mem_addName_of_mem
    exact hn

/-- C4: the normal-mode preparation step leaves the target folder empty
whether or not it existed, so a full normal run over a pre-existing folder
ends with only newly copied inputs in it; the restart-mode preparation step
creates the folder only when missing and leaves pre-existing entries
untouched, and a full restart run keeps every pre-existing entry. -/
theorem C4_directory_preparation :
    (∀ entries, Sim.prepare_folder_normal (some entries) = [])
    ∧ Sim.prepare_folder_normal none = []
    ∧ (∀ entries, Sim.prepare_folder_restart (some entries) = entries)
    ∧ Sim.prepare_folder_restart none = []
    ∧ (∀ (fs : Sim.SimFS) (script topology : String) (ligand coordinate : Option String)
        (contents : List String) (ex : Nat) (l : List String),
        (Sim.run_normal_simulation fs script topology ligand coordinate
          (some contents) ex).folder = some l →
        ∀ n ∈ l, n = basename script ∨ n = basename topology
          ∨ (∃ q, ligand = some q ∧ n = basename q)
          ∨ (∃ q, coordinate = some q ∧ n = basename q))
    ∧ (∀ (fs : Sim.SimFS) (ck : String) (st : Int) (args : Sim.SimArgs)
        (contents : List String) (ex : Nat) (l : List String),
        (Sim.run_restart_simulation fs ck st args (some contents) ex).folder = some l →
        ∀ n ∈ contents, n ∈ l) := by
  refine ⟨fun entries => rfl, rfl, fun entries => rfl, rfl, ?_, ?_⟩
  · intro fs script topology ligand coordinate contents ex l h
    exact Sim.run_normal_folder_sub fs script topology ligand coordinate (some contents) ex l h
  · intro fs ck st args contents ex l h
    exact Sim.run_restart_preserves fs ck st args contents ex l h

/-- Closed instance of C4: a normal run over a folder holding junk.txt ends
with only the copied script and topology; a restart run over a folder
holding old.txt keeps old.txt. -/
theorem C4_directory_preparation_witness :
    (Sim.run_normal_simulation allFS "s.py" "t.pdb" none none (some ["junk.txt"]) 0).folder
      = some ["s.py", "t.pdb"]
    ∧ (∀ n ∈ ["s.py", "t.pdb"], n = basename "s.py" ∨ n = basename "t.pdb"
        ∨ (∃ q, (none : Option String) = some q ∧ n = basename q)
        ∨ (∃ q, (none : Option String) = some q ∧ n = basename q))
    ∧ "old.txt" ∈ ["old.txt", "sim.py", "top.pdb", "foo.chk", "eq.pdb", "restart_simulation.py"]
    ∧ (Sim.run_restart_simulation allFS "foo.chk" 1 c1args (some ["old.txt"]) 0).folder
      = some ["old.txt", "sim.py", "top.pdb", "foo.chk", "eq.pdb", "restart_simulation.py"] := by
  refine ⟨by decide, ?_, ?_, by decide⟩
  · exact C4_directory_preparation.2.2.2.2.1 allFS "s.py" "t.pdb" none none ["junk.txt"] 0
      ["s.py", "t.pdb"] (by decide)
  · exact C4_directory_preparation.2.2.2.2.2 allFS "foo.chk" 1 c1args ["old.txt"] 0
      ["old.txt", "sim.py", "top.pdb", "foo.chk", "eq.pdb", "restart_simulation.py"]
      (by decide) "old.txt" (by decide)

/-- C8: run_normal_simulation deletes and recreates a pre-existing target
folder before any validation or source-existence check runs; when the
script extension validation then fails the run returns 1 over an already
empty folder (the prior contents are gone), and when the topology
validation fails after a successful script copy the folder holds only the
copied script (partially populated).  The error path never restores the
prior contents. -/
theorem C8_wipe_precedes_validation :
    (∀ (fs : Sim.SimFS) (script topology : String) (ligand coordinate : Option String)
        (contents : List String) (ex : Nat),
      (validate_file_format (some script) [".py"] "script").1 = false →
      Sim.run_normal_simulation fs script topology ligand coordinate (some contents) ex
        = { exit := 1, folder := some [] })
    ∧ (∀ (fs : Sim.SimFS) (script topology : String) (ligand coordinate : Option String)
        (contents : List String) (ex : Nat),
      (validate_file_format (some script) [".py"] "script").1 = true →
      fs.exists_src script = true →
      (validate_file_format (some topology) [".pdb", ".prmtop"] "topology").1 = false →
      Sim.run_normal_simulation fs script topology ligand coordinate (some contents) ex
        = { exit := 1, folder := some (addName [] (basename script)) }) := by
  constructor
  · intro fs script topology ligand coordinate contents ex hv
    have h1 : Sim.validate_and_copy fs (some script) [".py"] "script" [] = none := by
      simp [Sim.validate_and_copy, hv]
    exact Sim.rn_eq_fail1 fs script topology ligand coordinate (some contents) ex h1
  · intro fs script topology ligand coordinate contents ex hv he hvt
    have h1 : Sim.validate_and_copy fs (some script) [".py"] "script" []
        = some (addName [] (basename script)) := by
      simp [Sim.validate_and_copy, hv, he]
    have h2 : Sim.validate_and_copy fs (some topology) [".pdb", ".prmtop"] "topology"
        (addName [] (basename script)) = none := by
      simp [Sim.validate_and_copy, hvt]
    exact Sim.rn_eq_fail2 fs script topology ligand coordinate (some contents) ex
      (addName [] (basename script)) h1 h2

/-- Closed instance of C8: with folder contents old.txt, an invalid script
extension aborts with exit 1 over an emptied folder; a valid script plus an
invalid topology extension aborts with exit 1 over a folder holding only
the script. -/
theorem C8_wipe_precedes_validation_witness :
    Sim.run_normal_simulation allFS "run.txt" "t.pdb" none none (some ["old.txt"]) 0
      = { exit := 1, folder := some [] }
    ∧ Sim.run_normal_simulation allFS "s.py" "t.xyz" none none (some ["old.txt"]) 0
      = { exit := 1, folder := some (addName [] (basename "s.py")) } :=
  ⟨C8_wipe_precedes_validation.1 allFS "run.txt" "t.pdb" none none ["old.txt"] 0 (by decide),
   C8_wipe_precedes_validation.2 allFS "s.py" "t.xyz" none none ["old.txt"] 0
     (by decide) (by decide) (by decide)⟩

/-- C6: openmmdl_restart returns 1 with a printed diagnostic in each fatal
case: a missing simulation directory yields a message containing
"Simulation directory not found"; a required role that is neither given
explicitly nor auto-detectable (checkpoint, then script, then topology)
yields a message naming the role. -/
theorem C6_fatal_diagnostics (fs : Restart.RFS) (args : Restart.RestartArgs) (ex : Nat) :
    (fs.exists_p (abspath fs.cwd args.directory) = false →
      (Restart.run_restart_simulation fs args ex).exit = 1
      ∧ ∃ m ∈ (Restart.run_restart_simulation fs args ex).out,
          strHas "Simulation directory not found" m = true)
    ∧ (fs.exists_p (abspath fs.cwd args.directory) = true →
       args.checkpoint = none →
       Restart.find_checkpoint_in_directory fs (abspath fs.cwd args.directory) = none →
      (Restart.run_restart_simulation fs args ex).exit = 1
      ∧ ∃ m ∈ (Restart.run_restart_simulation fs args ex).out,
          strHas "checkpoint" m = true)
    ∧ (∀ c, fs.exists_p (abspath fs.cwd args.directory) = true →
       args.checkpoint = some c →
       args.script = none →
       Restart.find_script_in_directory fs (abspath fs.cwd args.directory) = none →
      (Restart.run_restart_simulation fs args ex).exit = 1
      ∧ ∃ m ∈ (Restart.run_restart_simulation fs args ex).out,
          strHas "script" m = true)
    ∧ (∀ c s, fs.exists_p (abspath fs.cwd args.directory) = true →
       args.checkpoint = some c →
       args.script = some s →
       args.topology = none →
       Restart.find_topology_in_directory fs (abspath fs.cwd args.directory) = none →
      (Restart.run_restart_simulation fs args ex).exit = 1
      ∧ ∃ m ∈ (Restart.run_restart_simulation fs args ex).out,
          strHas "topology" m = true) := by
  refine ⟨?_, ?_, ?_, ?_⟩
  · intro h
    have hrun : Restart.run_restart_simulation fs args ex =
        Restart.failRes ("Error: Simulation directory not found: "
          ++ abspath fs.cwd args.directory) := by
      simp [Restart.run_restart_simulation, h]
    rw [hrun]
    exact ⟨rfl, "Error: Simulation directory not found: " ++ abspath fs.cwd args.directory,
      by simp [Restart.failRes], strHas_extend _ _ _ (by decide)⟩
  · intro hd hc hf
    have hrun : Restart.run_restart_simulation fs args ex =
        Restart.failRes
          "Error: No checkpoint file found in directory. Use --checkpoint to specify." := by
      simp [Restart.run_restart_simulation, hd, hc, hf]
    rw [hrun]
    exact ⟨rfl, "Error: No checkpoint file found in directory. Use --checkpoint to specify.",
      by simp [Restart.failRes], by decide⟩
  · intro c hd hc hs hf
    have hrun : Restart.run_restart_simulation fs args ex =
        Restart.failRes
          "Error: No simulation script found in directory. Use --script to specify." := by
      simp [Restart.run_restart_simulation, hd, hc, hs, hf]
    rw [hrun]
    exact ⟨rfl, "Error: No simulation script found in directory. Use --script to specify.",
      by simp [Restart.failRes], by decide⟩
  · intro c s hd hc hs ht hf
    have hrun : Restart.run_restart_simulation fs args ex =
        Restart.failRes
          "Error: No topology file found in directory. Use --topology to specify." := by
      simp [Restart.run_restart_simulation, hd, hc, hs, ht, hf]
    rw [hrun]
    exact ⟨rfl, "Error: No topology file found in directory. Use --topology to specify.",
      by simp [Restart.failRes], by decide⟩

/-- Closed instance of C6: the four fatal cases at concrete oracles. -/
theorem C6_fatal_diagnostics_witness :
    ((Restart.run_restart_simulation dirlessFS args6a 0).exit = 1
      ∧ ∃ m ∈ (Restart.run_restart_simulation dirlessFS args6a 0).out,
          strHas "Simulation directory not found" m = true)
    ∧ ((Restart.run_restart_simulation noChkFS args6b 0).exit = 1
      ∧ ∃ m ∈ (Restart.run_restart_simulation noChkFS args6b 0).out,
          strHas "checkpoint" m = true)
    ∧ ((Restart.run_restart_simulation onlyChkFS args6c 0).exit = 1
      ∧ ∃ m ∈ (Restart.run_restart_simulation onlyChkFS args6c 0).out,
          strHas "script" m = true)
    ∧ ((Restart.run_restart_simulation noTopFS args6d 0).exit = 1
      ∧ ∃ m ∈ (Restart.run_restart_simulation noTopFS args6d 0).out,
          strHas "topology" m = true) :=
  ⟨(C6_fatal_diagnostics dirlessFS args6a 0).1 (by decide),
   (C6_fatal_diagnostics noChkFS args6b 0).2.1 (by decide) rfl (by decide),
   (C6_fatal_diagnostics onlyChkFS args6c 0).2.2.1 "run.chk" (by decide) rfl rfl (by decide),
   (C6_fatal_diagnostics noTopFS args6d 0).2.2.2 "run.chk" "sim.py" (by decide) rfl rfl rfl
     (by decide)⟩

/-- C9: every explicitly supplied path for checkpoint, script, topology or
coordinate is resolved against the absolute simulation directory: kept
unchanged when absolute, joined onto the simulation directory (never onto
the callers working directory alone) when relative; with all four roles
explicit the run never consults the directory listing or modification
times, so auto-detection is skipped. -/
theorem C9_explicit_path_resolution (fs : Restart.RFS) (args : Restart.RestartArgs)
    (ex : Nat) (c s t k : String)
    (hc : args.checkpoint = some c) (hs : args.script = some s)
    (ht : args.topology = some t) (hk : args.coordinate = some k)
    (hd : fs.exists_p (abspath fs.cwd args.directory) = true)
    (h1 : fs.exists_p (Restart.resolve_user_path (abspath fs.cwd args.directory) c) = true)
    (h2 : fs.exists_p (Restart.resolve_user_path (abspath fs.cwd args.directory) s) = true)
    (h3 : fs.exists_p (Restart.resolve_user_path (abspath fs.cwd args.directory) t) = true) :
    (Restart.run_restart_simulation fs args ex).checkpointPath
        = some (Restart.resolve_user_path (abspath fs.cwd args.directory) c)
    ∧ (Restart.run_restart_simulation fs args ex).scriptPath
        = some (Restart.resolve_user_path (abspath fs.cwd args.directory) s)
    ∧ (Restart.run_restart_simulation fs args ex).topologyPath
        = some (Restart.resolve_user_path (abspath fs.cwd args.directory) t)
    ∧ (Restart.run_restart_simulation fs args ex).coordinatePath
        = some (Restart.resolve_user_path (abspath fs.cwd args.directory) k)
    ∧ (∀ p, isAbs p = true →
        Restart.resolve_user_path (abspath fs.cwd args.directory) p = p)
    ∧ (∀ p, isAbs p = false →
        Restart.resolve_user_path (abspath fs.cwd args.directory) p
          = pathJoin (abspath fs.cwd args.directory) p)
    ∧ (∀ fs' : Restart.RFS, fs'.cwd = fs.cwd → fs'.exists_p = fs.exists_p →
        Restart.run_restart_simulation fs' args ex
          = Restart.run_restart_simulation fs args ex) := by
  refine ⟨?_, ?_, ?_, ?_, ?_, ?_, ?_⟩
  · simp [Restart.run_restart_simulation, hc, hs, ht, hk, hd, h1, h2, h3]
  · simp [Restart.run_restart_simulation, hc, hs, ht, hk, hd, h1, h2, h3]
  · simp [Restart.run_restart_simulation, hc, hs, ht, hk, hd, h1, h2, h3]
  · simp [Restart.run_restart_simulation, hc, hs, ht, hk, hd, h1, h2, h3]
  · intro p hp
    simp [Restart.resolve_user_path, hp]
  · intro p hp
    simp [Restart.resolve_user_path, hp]
  · intro fs' e1 e2
    simp only [Restart.run_restart_simulation, hc, hs, ht, hk, e1, e2]

/-- Closed instance of C9: a relative checkpoint c.chk resolves to
/sim/c.chk, an absolute script /abs/s.py is kept unchanged, relative
topology and coordinate paths join onto /sim. -/
theorem C9_explicit_path_resolution_witness :
    (Restart.run_restart_simulation allRFS args9 0).checkpointPath = some "/sim/c.chk"
    ∧ (Restart.run_restart_simulation allRFS args9 0).scriptPath = some "/abs/s.py"
    ∧ (Restart.run_restart_simulation allRFS args9 0).topologyPath = some "/sim/t.pdb"
    ∧ (Restart.run_restart_simulation allRFS args9 0).coordinatePath = some "/sim/k.inpcrd" := by
  have h := C9_explicit_path_resolution allRFS args9 0 "c.chk" "/abs/s.py" "t.pdb" "k.inpcrd"
    rfl rfl rfl rfl (by decide) (by decide) (by decide) (by decide)
  refine ⟨?_, ?_, ?_, ?_⟩
  · rw [h.1]
    decide
  · rw [h.2.1]
    decide
  · rw [h.2.2.1]
    decide
  · rw [h.2.2.2.1]
    decide

/-- C10: when --restart-step is omitted, a successful run prints the
warning, uses restart step 0, and the generated script assigns 0 to the
simulation step counter and advances by steps minus 0, i.e. the full
original step count. -/
theorem C10_default_restart_step (fs : Restart.RFS) (args : Restart.RestartArgs) (ex : Nat)
    (hs : args.restart_step = none)
    (h0 : (Restart.run_restart_simulation fs args ex).exit = 0) :
    (∃ m ∈ (Restart.run_restart_simulation fs args ex).out,
        strHas "Warning: --restart-step not specified" m = true)
    ∧ (Restart.run_restart_simulation fs args ex).stepUsed = some 0
    ∧ ∀ pc ∈ (Restart.run_restart_simulation fs args ex).written,
        strHas "simulation.currentStep = 0" pc.2 = true
        ∧ strHas "simulation.step(steps - 0)" pc.2 = true := by
  rcases Restart.run_shape fs args ex with ⟨m, hm⟩ | ⟨ck, sc, tp, co, hm⟩
  · rw [hm] at h0
    simp [Restart.failRes] at h0
  · rw [hm, hs]
    refine ⟨⟨"Warning: --restart-step not specified. Will attempt to infer from checkpoint.",
      by simp [Restart.warnLines], by decide⟩, by simp, ?_⟩
    intro pc hpc
    simp only [List.mem_singleton] at hpc
    subst hpc
    constructor
    · have heq : "simulation.currentStep = 0" = rsCurStep ++ toString (0 : Int) := by decide
      rw [heq]
      exact content_has_currentStep (basename ck) (basename tp) (basename sc)
        (coordFilename co) 0 (endsWithS tp ".prmtop")
    · have heq : "simulation.step(steps - 0)" = rsStepCall ++ (toString (0 : Int) ++ ")") := by
        decide
      rw [heq]
      exact content_has_stepCall (basename ck) (basename tp) (basename sc)
        (coordFilename co) 0 (endsWithS tp ".prmtop")

/-- Closed instance of C10: the /tmp/run scenario without --restart-step. -/
theorem C10_default_restart_step_witness :
    (∃ m ∈ (Restart.run_restart_simulation scenFS noStepArgs 0).out,
        strHas "Warning: --restart-step not specified" m = true)
    ∧ (Restart.run_restart_simulation scenFS noStepArgs 0).stepUsed = some 0
    ∧ ∀ pc ∈ (Restart.run_restart_simulation scenFS noStepArgs 0).written,
        strHas "simulation.currentStep = 0" pc.2 = true
        ∧ strHas "simulation.step(steps - 0)" pc.2 = true :=
  C10_default_restart_step scenFS noStepArgs 0 rfl (by decide)

set_option maxRecDepth 100000

/-- C7: the generated driver substitutes the checkpoint, step, script and
topology names into the fixed template; the Amber prmtop/inpcrd loading
lines are emitted exactly when the topology path ends in .prmtop and the
PDB loading line otherwise; the script sets the step counter to the restart
step and advances by steps minus that step; and in the /tmp/run scenario
with sim.pdb, run.chk and driver.py the three roles are auto-detected, the
run returns 0, and the written /tmp/run/restart_simulation.py contains the
literal substrings run.chk and 5000. -/
theorem C7_template_and_scenario :
    (∀ (fs : Restart.RFS) (args : Restart.RestartArgs) (ex : Nat),
      (Restart.run_restart_simulation fs args ex).exit = 0 →
      ∀ pc ∈ (Restart.run_restart_simulation fs args ex).written,
        ∃ tpPath, (Restart.run_restart_simulation fs args ex).topologyPath = some tpPath
          ∧ (endsWithS tpPath ".prmtop" = true →
              strHas ("prmtop = AmberPrmtopFile(\"" ++ (basename tpPath ++ "\")")) pc.2 = true
              ∧ ∃ coordName,
                  strHas ("inpcrd = AmberInpcrdFile(\"" ++ (coordName ++ "\")")) pc.2 = true)
          ∧ (endsWithS tpPath ".prmtop" = false →
              strHas ("pdb = PDBFile(\"" ++ (basename tpPath ++ "\")")) pc.2 = true))
    ∧ (∀ (fs : Restart.RFS) (args : Restart.RestartArgs) (ex : Nat),
      (Restart.run_restart_simulation fs args ex).exit = 0 →
      ∀ pc ∈ (Restart.run_restart_simulation fs args ex).written,
        ∃ st, (Restart.run_restart_simulation fs args ex).stepUsed = some st
          ∧ strHas ("simulation.currentStep = " ++ toString st) pc.2 = true
          ∧ strHas ("simulation.step(steps - " ++ (toString st ++ ")")) pc.2 = true)
    ∧ ((Restart.run_restart_simulation scenFS scenArgs 0).exit = 0
      ∧ (Restart.run_restart_simulation scenFS scenArgs 0).checkpointPath
          = some "/tmp/run/run.chk"
      ∧ (Restart.run_restart_simulation scenFS scenArgs 0).scriptPath
          = some "/tmp/run/driver.py"
      ∧ (Restart.run_restart_simulation scenFS scenArgs 0).topologyPath
          = some "/tmp/run/sim.pdb"
      ∧ (Restart.run_restart_simulation scenFS scenArgs 0).written.length = 1
      ∧ ∀ pc ∈ (Restart.run_restart_simulation scenFS scenArgs 0).written,
          pc.1 = "/tmp/run/restart_simulation.py"
          ∧ strHas "run.chk" pc.2 = true
          ∧ strHas "5000" pc.2 = true) := by
  refine ⟨?_, ?_, by decide, by decide, by decide, by decide, by decide, by decide⟩
  · intro fs args ex h0 pc hpc
    rcases Restart.run_shape fs args ex with ⟨m, hm⟩ | ⟨ck, sc, tp, co, hm⟩
    · rw [hm] at h0
      simp [Restart.failRes] at h0
    · rw [hm] at hpc
      simp only [List.mem_singleton] at hpc
      subst hpc
      rw [hm]
      refine ⟨tp, rfl, ?_, ?_⟩
      · intro ha
        rw [ha]
        exact ⟨content_amber_prmtop (basename ck) (basename tp) (basename sc)
            (coordFilename co) (args.restart_step.getD 0),
          coordFilename co,
          content_amber_inpcrd (basename ck) (basename tp) (basename sc)
            (coordFilename co) (args.restart_step.getD 0)⟩
      · intro hp
        rw [hp]
        exact content_pdb_line (basename ck) (basename tp) (basename sc)
          (coordFilename co) (args.restart_step.getD 0)
  · intro fs args ex h0 pc hpc
    rcases Restart.run_shape fs args ex with ⟨m, hm⟩ | ⟨ck, sc, tp, co, hm⟩
    · rw [hm] at h0
      simp [Restart.failRes] at h0
    · rw [hm] at hpc
      simp only [List.mem_singleton] at hpc
      subst hpc
      rw [hm]
      exact ⟨args.restart_step.getD 0, rfl,
        content_has_currentStep (basename ck) (basename tp) (basename sc)
          (coordFilename co) (args.restart_step.getD 0) (endsWithS tp ".prmtop"),
        content_has_stepCall (basename ck) (basename tp) (basename sc)
          (coordFilename co) (args.restart_step.getD 0) (endsWithS tp ".prmtop")⟩

/-- Closed instance of C7: the branch and step facts applied to the
/tmp/run scenario run. -/
theorem C7_template_and_scenario_witness :
    (∀ pc ∈ (Restart.run_restart_simulation scenFS scenArgs 0).written,
      ∃ tpPath,
        (Restart.run_restart_simulation scenFS scenArgs 0).topologyPath = some tpPath
          ∧ (endsWithS tpPath ".prmtop" = true →
              strHas ("prmtop = AmberPrmtopFile(\"" ++ (basename tpPath ++ "\")")) pc.2 = true
              ∧ ∃ coordName,
                  strHas ("inpcrd = AmberInpcrdFile(\"" ++ (coordName ++ "\")")) pc.2 = true)
          ∧ (endsWithS tpPath ".prmtop" = false →
              strHas ("pdb = PDBFile(\"" ++ (basename tpPath ++ "\")")) pc.2 = true))
    ∧ (∀ pc ∈ (Restart.run_restart_simulation scenFS scenArgs 0).written,
        ∃ st, (Restart.run_restart_simulation scenFS scenArgs 0).stepUsed = some st
          ∧ strHas ("simulation.currentStep = " ++ toString st) pc.2 = true
          ∧ strHas ("simulation.step(steps - " ++ (toString st ++ ")")) pc.2 = true) :=
  ⟨C7_template_and_scenario.1 scenFS scenArgs 0 (by decide),
   C7_template_and_scenario.2.1 scenFS scenArgs 0 (by decide)⟩
